import Mathlib

/-!
# Verification of the PrusaSlicer NLopt optimizer wrapper
(`src/libslic3r/Optimizer.hpp`)

Shallow embedding of the optimizer abstraction layer:

* C++ `double` values are modelled by `DblQ := Option ℚ` where `none` stands
  for the NaN sentinel (`std::nan("")`) and `some q` for a finite value.
  None of the verified claims depends on rounding, only on NaN-testing,
  comparisons and exact constants, so exact rationals are faithful.
* The foreign NLopt solver is modelled abstractly: a solver context is a
  record of the configuration calls made on it (`CtxCfg`), and
  `nlopt_optimize` is an arbitrary `Oracle` mapping a configured context and
  the initial point buffer to a termination code, final buffer and score.
* Object lifetime / resource questions (RAII of `detail::NLopt`, the stack
  lifetime of the `TData` tuple created in `set_up`) are modelled by an
  explicit event trace of the structured control flow of `optimize`.
-/

set_option autoImplicit false

namespace SlicOpt

/-- C++ `double`, restricted to the behaviours the claims use:
`none` is the NaN sentinel produced by `std::nan("")`, `some q` a finite
value. -/
abbrev DblQ := Option ℚ

/-- `std::nan("")`. -/
def nanD : DblQ := none

/-- `std::isnan`. -/
def isnanD (v : DblQ) : Bool := v.isNone

/-- `std::numeric_limits<double>::min()`: the smallest positive normalized
IEEE-754 binary64 value, `2^(-1022)`. -/
def numeric_limits_double_min : ℚ := 1 / 2 ^ 1022

/-- `std::numeric_limits<double>::max()`: the largest finite binary64 value,
`(2 - 2^(-52)) * 2^1023`. -/
def numeric_limits_double_max : ℚ := (2 - 1 / 2 ^ 52) * 2 ^ 1023

/-- `std::numeric_limits<double>::lowest()`: the most negative finite
binary64 value, `-max`. -/
def numeric_limits_double_lowest : ℚ := -numeric_limits_double_max

/-- `class Bound` (Optimizer.hpp:32-43): an interval of possible input
values, two `double` members. The claims about `Bound` only involve finite
values, so the members are plain rationals. -/
structure Bound where
  m_min : ℚ
  m_max : ℚ
deriving DecidableEq, Repr

/-- The default-constructed `Bound`: the C++ constructor defaults are
`min = std::numeric_limits<double>::min()` and
`max = std::numeric_limits<double>::max()` (Optimizer.hpp:36-37). -/
def Bound.default : Bound :=
  ⟨numeric_limits_double_min, numeric_limits_double_max⟩

/-- `Bound::min()` accessor. -/
def Bound.min (b : Bound) : ℚ := b.m_min

/-- `Bound::max()` accessor. -/
def Bound.max (b : Bound) : ℚ := b.m_max

/-- `class StopCriteria` (Optimizer.hpp:53-107).  The numeric fields default
to the NaN sentinel (`none`); `m_max_iterations` is `unsigned`, default 0.
The `std::function<bool()>` stop predicate is impure in C++ (it may answer
differently on successive calls), so it is modelled as a function of the
call index. -/
structure StopCriteria where
  m_abs_score_diff : DblQ := nanD
  m_rel_score_diff : DblQ := nanD
  m_stop_score : DblQ := nanD
  m_stop_condition : ℕ → Bool := fun _ => false
  m_max_iterations : ℕ := 0

/-- The default-constructed `StopCriteria`. -/
def StopCriteria.default : StopCriteria := {}

/-- Setter `StopCriteria::abs_score_diff(double)`: assigns the member and
returns the updated object (`return *this`). -/
def StopCriteria.abs_score_diff (s : StopCriteria) (val : DblQ) : StopCriteria :=
  { s with m_abs_score_diff := val }

/-- Getter `StopCriteria::abs_score_diff() const`. -/
def StopCriteria.abs_score_diff_get (s : StopCriteria) : DblQ := s.m_abs_score_diff

/-- Setter `StopCriteria::rel_score_diff(double)`. -/
def StopCriteria.rel_score_diff (s : StopCriteria) (val : DblQ) : StopCriteria :=
  { s with m_rel_score_diff := val }

/-- Getter `StopCriteria::rel_score_diff() const`. -/
def StopCriteria.rel_score_diff_get (s : StopCriteria) : DblQ := s.m_rel_score_diff

/-- Setter `StopCriteria::stop_score(double)`. -/
def StopCriteria.stop_score (s : StopCriteria) (val : DblQ) : StopCriteria :=
  { s with m_stop_score := val }

/-- Getter `StopCriteria::stop_score() const`. -/
def StopCriteria.stop_score_get (s : StopCriteria) : DblQ := s.m_stop_score

/-- The C++ `double` → `unsigned` conversion performed by the member
initialisation `m_max_iterations = val` in
`StopCriteria::max_iterations(double val)` (Optimizer.hpp:94-97):
truncation toward zero.  The conversion is only defined (in C++) for values
in `[0, 2^32)`; outside that range and for NaN the behaviour is undefined
and the model's value (0) is arbitrary — no theorem relies on it. -/
def double_to_unsigned : DblQ → ℕ
  | none => 0
  | some q => if 0 ≤ q ∧ q < 2 ^ 32 then (⌊q⌋).toNat else 0

/-- Setter `StopCriteria::max_iterations(double val)`: note the parameter
type is `double` while the member is `unsigned`, so the value is converted
(truncated). -/
def StopCriteria.max_iterations (s : StopCriteria) (val : DblQ) : StopCriteria :=
  { s with m_max_iterations := double_to_unsigned val }

/-- Getter `StopCriteria::max_iterations() const`: returns the `unsigned`
member converted back to `double` (exact, since `unsigned` values are below
`2^53`). -/
def StopCriteria.max_iterations_get (s : StopCriteria) : DblQ :=
  some (s.m_max_iterations : ℚ)

/-- Setter `StopCriteria::stop_condition(Fn&&)`. -/
def StopCriteria.stop_condition (s : StopCriteria) (cond : ℕ → Bool) : StopCriteria :=
  { s with m_stop_condition := cond }

/-- `bool StopCriteria::stop_condition()`: invoke the stored predicate (at
call index `k` in the model). -/
def StopCriteria.stop_condition_call (s : StopCriteria) (k : ℕ) : Bool :=
  s.m_stop_condition k

/-- `detail::to_tuple_<I, N, T, C>::call(c)` (Optimizer.hpp:149-159),
as the list of values it collects:
`to_tuple_<I>::call(c) = tuple_cat(tuple{c[I]}, to_tuple_<I-1>::call(c))`
with the base case `to_tuple_<0>` yielding the empty tuple.  The raw array
`c` is modelled as a total function from indices; what the code reads at an
out-of-bounds index is whatever garbage sits there. -/
def to_tuple_call : ℕ → (ℕ → ℚ) → List ℚ
  | 0, _ => []
  | i + 1, c => c (i + 1) :: to_tuple_call i c

/-- `detail::carray_tuple<N>(v) = to_tuple_<N, N, T, const T*>::call(v)`
(Optimizer.hpp:162-165). -/
def carray_tuple (N : ℕ) (c : ℕ → ℚ) : List ℚ := to_tuple_call N c

/-- The unpacking the specification describes: the first `N` entries of the
array, in order, indices `0` through `N-1`. (Stated from the spec, for
comparison with `carray_tuple` which is translated from the source.) -/
def spec_first_n (N : ℕ) (c : ℕ → ℚ) : List ℚ := (List.range N).map c

/-- `detail::OptDir` (Optimizer.hpp:175) together with the indeterminate
value of an uninitialized `OptDir` object: `NLoptOpt::m_dir` has no
initializer and `NLoptOpt`'s constructor does not set it, so before
`set_dir` is called the member holds an unspecified value, modelled by
`undef`. -/
inductive OptDirV where
  | MIN
  | MAX
  | undef
deriving DecidableEq, Repr

/-- The data members of `detail::NLoptOpt<NLoptAlg<alg>>`
(Optimizer.hpp:196-199). -/
structure NLoptOptState where
  m_stopcr : StopCriteria
  m_dir : OptDirV

/-- `NLoptOpt(StopCriteria stopcr = {})` (Optimizer.hpp:279): initializes
`m_stopcr` only; `m_dir` is left uninitialized (`undef`). -/
def NLoptOpt_init (stopcr : StopCriteria) : NLoptOptState :=
  ⟨stopcr, OptDirV.undef⟩

/-- `NLoptOpt::set_dir` (Optimizer.hpp:283). -/
def NLoptOptState.set_dir (o : NLoptOptState) (dir : OptDirV) : NLoptOptState :=
  { o with m_dir := dir }

/-- `NLoptOpt::set_criteria` (Optimizer.hpp:281). -/
def NLoptOptState.set_criteria (o : NLoptOptState) (cr : StopCriteria) : NLoptOptState :=
  { o with m_stopcr := cr }

/-- The public front `Optimizer<detail::NLoptOpt<M>>` (Optimizer.hpp:314-340):
holds an `NLoptOpt` by value. -/
structure OptimizerState where
  m_opt : NLoptOptState

/-- `Optimizer(StopCriteria stopcr = {})` (Optimizer.hpp:330): constructs
`m_opt` from the criteria; the direction member is never touched. -/
def Optimizer_init (stopcr : StopCriteria) : OptimizerState :=
  ⟨NLoptOpt_init stopcr⟩

/-- `Optimizer::to_min` (Optimizer.hpp:320): sets the direction and returns
the updated object (`return *this`). -/
def OptimizerState.to_min (o : OptimizerState) : OptimizerState :=
  ⟨o.m_opt.set_dir OptDirV.MIN⟩

/-- `Optimizer::to_max` (Optimizer.hpp:319). -/
def OptimizerState.to_max (o : OptimizerState) : OptimizerState :=
  ⟨o.m_opt.set_dir OptDirV.MAX⟩

/-!
## Abstract model of an NLopt solver context

An `nlopt_opt` handle is modelled by the record of the configuration calls
made on it.  A fresh context (`nlopt_create`) has everything unset; each
`nlopt_set_*` call fills the corresponding field.  The installed objective
is identified by its direction and by the user function captured in the
`TData` tuple (modelled by an identifier `funcId`).
-/

/-- The observable configuration of one `nlopt_opt` context. -/
structure CtxCfg where
  alg : ℕ
  dim : ℕ
  lower : List ℚ := []
  upper : List ℚ := []
  ftol_abs : Option ℚ := none
  ftol_rel : Option ℚ := none
  stopval : Option ℚ := none
  maxeval : Option ℕ := none
  /-- the `nlopt_set_min_objective` / `nlopt_set_max_objective` call:
  direction and the identity of the user objective the adapter captured. -/
  objective : Option (OptDirV × ℕ) := none
deriving DecidableEq, Repr

/-- `nlopt_create(alg, N)`: a fresh context with the solver defaults
(everything unset). -/
def nlopt_create (alg dim : ℕ) : CtxCfg := { alg := alg, dim := dim }

/-- `NLoptOpt::set_up(nl, func, bounds)` (Optimizer.hpp:222-253), as its
effect on the context's configuration, statement by statement:
bounds arrays, then each stop-criteria field guarded by its sentinel test,
then the objective installation switch on `m_dir` (which installs nothing
when `m_dir` holds neither `MIN` nor `MAX`). -/
def set_up (o : NLoptOptState) (funcId : ℕ) (bounds : List Bound)
    (nl : CtxCfg) : CtxCfg :=
  let nl := { nl with
    lower := bounds.map Bound.min,
    upper := bounds.map Bound.max }
  let abs_diff := o.m_stopcr.abs_score_diff_get
  let rel_diff := o.m_stopcr.rel_score_diff_get
  let stopval := o.m_stopcr.stop_score_get
  let nl := if isnanD abs_diff then nl else { nl with ftol_abs := abs_diff }
  let nl := if isnanD rel_diff then nl else { nl with ftol_rel := rel_diff }
  let nl := if isnanD stopval then nl else { nl with stopval := stopval }
  let nl := if o.m_stopcr.m_max_iterations > 0
            then { nl with maxeval := some o.m_stopcr.m_max_iterations }
            else nl
  match o.m_dir with
  | OptDirV.MIN => { nl with objective := some (OptDirV.MIN, funcId) }
  | OptDirV.MAX => { nl with objective := some (OptDirV.MAX, funcId) }
  | OptDirV.undef => nl

/-- A context as handed to `nlopt_optimize`: its own configuration plus the
configuration of the subordinate local optimizer registered by
`nlopt_set_local_optimizer`, if any. -/
structure SolverCtx where
  cfg : CtxCfg
  localOpt : Option CtxCfg := none
deriving DecidableEq, Repr

/-- `Result<N>` (Optimizer.hpp:25-29). -/
structure Result where
  resultcode : ℤ
  optimum : List ℚ
  score : ℚ
deriving DecidableEq, Repr

/-- The foreign solver's run entry point `nlopt_optimize`, abstractly: given
the configured context and the initial contents of the point buffer, it
returns a termination code, the final contents of the buffer and the final
score.  All claims below are proved for every oracle, i.e. for every
behaviour of the foreign solver. -/
def Oracle := SolverCtx → List ℚ → ℤ × List ℚ × ℚ

/-- The protected `NLoptOpt::optimize(nl, initvals)` (Optimizer.hpp:255-264):
`r.optimum = initvals;`
`r.resultcode = nlopt_optimize(nl.ptr, r.optimum.data(), &r.score);`
The buffer handed to the solver starts as `initvals` and is mutated in
place; code, mutated buffer and score populate the `Result`. -/
def base_optimize (oracle : Oracle) (nl : SolverCtx) (initvals : List ℚ) : Result :=
  let out := oracle nl initvals
  { resultcode := out.1, optimum := out.2.1, score := out.2.2 }

/-- The public `NLoptOpt<NLoptAlg<alg>>::optimize` (Optimizer.hpp:268-277):
create one fresh context, run `set_up`, run the solver on it. -/
def nloptopt_optimize (oracle : Oracle) (o : NLoptOptState) (alg funcId : ℕ)
    (initvals : List ℚ) (bounds : List Bound) : Result :=
  let nl := set_up o funcId bounds (nlopt_create alg bounds.length)
  base_optimize oracle ⟨nl, none⟩ initvals

/-- `NLoptOpt<NLoptAlgComb<glob, loc>>::optimize` (Optimizer.hpp:294-306):
create two fresh contexts, apply `Base::set_up` to both, register the local
context as the global one's local optimizer, and run only the global
context via `Base::optimize`. -/
def comb_optimize (oracle : Oracle) (o : NLoptOptState) (glob loc funcId : ℕ)
    (initvals : List ℚ) (bounds : List Bound) : Result :=
  let nl_glob := set_up o funcId bounds (nlopt_create glob bounds.length)
  let nl_loc := set_up o funcId bounds (nlopt_create loc bounds.length)
  base_optimize oracle ⟨nl_glob, some nl_loc⟩ initvals

/-!
## The objective adapter `NLoptOpt::optfunc`

`optfunc` (Optimizer.hpp:204-220) is the callback NLopt invokes on every
candidate point.  Besides its return value we record the observable actions
it performs, in order, as an event list: the evaluation of the stop
predicate, the `nlopt_force_stop` call (when taken), and the application of
the user objective.
-/

/-- Observable actions of one `optfunc` invocation. -/
inductive AdEv where
  /-- `m_stopcr.stop_condition()` was evaluated and returned the recorded
  value. -/
  | checkStopCond (result : Bool)
  /-- `nlopt_force_stop` was called on the solver's stop handle. -/
  | forceStop
  /-- the user objective was applied (via `std::apply`). -/
  | applyObjective
deriving DecidableEq, Repr

/-- `NLoptOpt::optfunc<Fn, N>` (Optimizer.hpp:204-220), body in source
order.  `o` is the owning binding reached through the `TData` tuple, `k`
the index of this invocation (the stop predicate is impure), `f` the user
objective reached through the tuple's function pointer, `params` the raw
array passed by the solver.  Returns the score together with the event
log. -/
def optfunc (o : NLoptOptState) (k : ℕ) (f : List ℚ → ℚ) (N : ℕ)
    (params : ℕ → ℚ) : ℚ × List AdEv :=
  let cond := o.m_stopcr.stop_condition_call k
  let evs := [AdEv.checkStopCond cond] ++ (if cond then [AdEv.forceStop] else [])
  let funval := carray_tuple N params
  (f funval, evs ++ [AdEv.applyObjective])

/-!
## Control-flow trace of one `optimize` call

C++ automatic storage duration and the RAII of `detail::NLopt`
(Optimizer.hpp:177-191) are determined by the structured control flow of
`optimize`, which is straight-line.  We record it as an event trace:
contexts are numbered in order of construction; destructors of locals run
in reverse construction order when the enclosing block exits; the locals of
`set_up` — including the `TData` tuple created at Optimizer.hpp:245 — are
destroyed when `set_up` returns.
-/

/-- Events of the control flow of `optimize`. -/
inductive Ev where
  /-- `NLopt nl{alg, N}` — `nlopt_create`. -/
  | createCtx (id alg dim : ℕ)
  /-- entry into `set_up` for context `id`. -/
  | enterSetUp (id : ℕ)
  /-- `TData<Func> data = std::make_tuple(&func, this, nl.ptr);` — the
  context tuple is created as a local variable of `set_up`. -/
  | createData (id : ℕ)
  /-- `nlopt_set_min_objective` / `nlopt_set_max_objective` with `&data`. -/
  | installObjective (id : ℕ)
  /-- `set_up` returns: its locals, including `data`, are destroyed. -/
  | exitSetUp (id : ℕ)
  /-- `nlopt_set_local_optimizer(glob.ptr, loc.ptr)`. -/
  | setLocalOptim (glob loc : ℕ)
  /-- `nlopt_optimize` runs on context `id`; the solver invokes the
  installed callback during this event; `rc` is the code it returns. -/
  | runSolver (id : ℕ) (rc : ℤ)
  /-- `~NLopt()` — `nlopt_destroy` on context `id`. -/
  | destroyCtx (id : ℕ)
deriving DecidableEq, Repr

/-- The events of one `set_up` call (Optimizer.hpp:222-253) on context
`id`: the `data` tuple is created, the objective (when the direction is
set) is installed with a pointer to it, and it is destroyed when the
function returns. -/
def setUpTrace (o : NLoptOptState) (id : ℕ) : List Ev :=
  [Ev.enterSetUp id, Ev.createData id]
  ++ (match o.m_dir with
      | OptDirV.undef => []
      | _ => [Ev.installObjective id])
  ++ [Ev.exitSetUp id]

/-- The control-flow trace of
`NLoptOpt<NLoptAlg<alg>>::optimize(func, initvals, bounds)`
(Optimizer.hpp:268-277) when the solver run returns code `rc`: one context
is created, `set_up` runs, the solver runs, and the context is destroyed
when the function returns — the same single path regardless of `rc`. -/
def singleOptTrace (o : NLoptOptState) (alg dim : ℕ) (rc : ℤ) : List Ev :=
  [Ev.createCtx 0 alg dim] ++ setUpTrace o 0
  ++ [Ev.runSolver 0 rc, Ev.destroyCtx 0]

/-- The control-flow trace of
`NLoptOpt<NLoptAlgComb<glob, loc>>::optimize` (Optimizer.hpp:294-306) when
the (global) solver run returns code `rc`: both contexts are created, both
are set up, the local one is registered on the global one, only the global
one runs, and both are destroyed (reverse construction order) when the
function returns. -/
def combOptTrace (o : NLoptOptState) (glob loc dim : ℕ) (rc : ℤ) : List Ev :=
  [Ev.createCtx 0 glob dim, Ev.createCtx 1 loc dim]
  ++ setUpTrace o 0 ++ setUpTrace o 1
  ++ [Ev.setLocalOptim 0 1, Ev.runSolver 0 rc, Ev.destroyCtx 1, Ev.destroyCtx 0]

/-- Ids of the contexts created in a trace, in order. -/
def createdIds (tr : List Ev) : List ℕ :=
  tr.filterMap fun e => match e with
    | Ev.createCtx id _ _ => some id
    | _ => none

/-- Ids of the contexts destroyed in a trace, in order. -/
def destroyedIds (tr : List Ev) : List ℕ :=
  tr.filterMap fun e => match e with
    | Ev.destroyCtx id => some id
    | _ => none

/-- Walks a trace tracking whether the `TData` tuple (a local of `set_up`)
is a live object, and checks that it is live whenever the solver runs:
`createData` brings it to life, `exitSetUp` ends its lifetime (C++
automatic storage duration), and `runSolver` — during which the solver
dereferences the stored `&data` — requires it to be live. -/
def dataLiveWalk : Bool → List Ev → Bool
  | _, [] => true
  | _, Ev.createData _ :: rest => dataLiveWalk true rest
  | _, Ev.exitSetUp _ :: rest => dataLiveWalk false rest
  | alive, Ev.runSolver _ _ :: rest => alive && dataLiveWalk alive rest
  | alive, _ :: rest => dataLiveWalk alive rest

/-- The `TData` context tuple is live at every point where the solver (and
hence the installed callback that dereferences it) runs. -/
def dataLiveThroughRun (tr : List Ev) : Bool := dataLiveWalk false tr

/-- A concrete raw array as the solver would pass it for `N = 2`: entries
`10` and `20` at indices 0 and 1, and garbage `g` beyond the end of the
array. -/
def exArray (g : ℚ) : ℕ → ℚ :=
  fun i => if i = 0 then 10 else if i = 1 then 20 else g

/-!
## Theorems
-/

/-- Helper: `to_tuple_` collects `c[N], c[N-1], …, c[1]`, in that order. -/
theorem to_tuple_call_eq (c : ℕ → ℚ) :
    ∀ N, to_tuple_call N c = (List.range N).map fun i => c (N - i) := by
  intro N
  induction N with
  | zero => rfl
  | succ n ih =>
      simp [to_tuple_call, ih, List.range_succ_eq_map, List.map_map,
        Function.comp, Nat.succ_sub_succ]

/-- Helper: full characterization of `set_up` as a record of its
configuration effect, one field at a time. -/
theorem set_up_spec (o : NLoptOptState) (funcId : ℕ) (bounds : List Bound)
    (nl : CtxCfg) :
    set_up o funcId bounds nl =
      { alg := nl.alg
        dim := nl.dim
        lower := bounds.map Bound.min
        upper := bounds.map Bound.max
        ftol_abs := if isnanD o.m_stopcr.m_abs_score_diff then nl.ftol_abs
                    else o.m_stopcr.m_abs_score_diff
        ftol_rel := if isnanD o.m_stopcr.m_rel_score_diff then nl.ftol_rel
                    else o.m_stopcr.m_rel_score_diff
        stopval := if isnanD o.m_stopcr.m_stop_score then nl.stopval
                   else o.m_stopcr.m_stop_score
        maxeval := if o.m_stopcr.m_max_iterations > 0
                   then some o.m_stopcr.m_max_iterations else nl.maxeval
        objective := match o.m_dir with
          | OptDirV.MIN => some (OptDirV.MIN, funcId)
          | OptDirV.MAX => some (OptDirV.MAX, funcId)
          | OptDirV.undef => nl.objective } := by
  cases hd : o.m_dir <;>
    simp only [set_up, StopCriteria.abs_score_diff_get,
      StopCriteria.rel_score_diff_get, StopCriteria.stop_score_get, hd] <;>
    split_ifs <;> rfl

/-- Helper: the sentinel-guarded translation applied to an unset solver
field equals the criteria field itself. -/
theorem sentinel_translate (x : DblQ) :
    (if isnanD x then (none : Option ℚ) else x) = x := by
  cases x <;> simp [isnanD]

/-- C1 (code_bug evaluation): `carray_tuple` does NOT unpack the first `N`
array entries in order.  `to_tuple_<I>::call` reads `c[I]` and recurses
down to `c[1]`, so for `N = 2` the argument list is `(params[2],
params[1])` — reversed, off by one, and reading index 2, one past the end
of the length-2 array the solver passes — whatever garbage `g` sits there
appears as the first argument.  In general the indices read are `N, N-1,
…, 1`, not `0, …, N-1` as the claim states. -/
theorem carray_tuple_reads_wrong_indices :
    (∀ g : ℚ, carray_tuple 2 (exArray g) = [g, 20])
  ∧ carray_tuple 2 (exArray 999) ≠ spec_first_n 2 (exArray 999)
  ∧ ∀ (N : ℕ) (c : ℕ → ℚ),
      carray_tuple N c = (List.range N).map fun i => c (N - i) := by
  refine ⟨?_, ?_, ?_⟩
  · intro g
    simp [carray_tuple, to_tuple_call, exArray]
  · simp [carray_tuple, to_tuple_call, spec_first_n, exArray, List.range_succ]
  · intro N c
    exact to_tuple_call_eq c N

/-- C2 (code_bug evaluation): the `TData` context tuple is created as a
local variable of `set_up` (Optimizer.hpp:245) and `&data` is handed to
`nlopt_set_min_objective`, but `set_up` returns before `nlopt_optimize`
runs (Optimizer.hpp:274-276), so the tuple's lifetime has ended — the
callback dereferences a dangling pointer — at the point the solver runs.
Shown on the trace of a concrete single-algorithm `optimize` call (`MIN`
direction, dimension 2): the trace does contain the tuple creation and the
solver run, yet the tuple is not live through the run. -/
theorem tdata_dangling_during_solver_run :
    (Ev.createData 0 ∈
      singleOptTrace ((NLoptOpt_init StopCriteria.default).set_dir OptDirV.MIN) 0 2 0)
  ∧ (Ev.runSolver 0 0 ∈
      singleOptTrace ((NLoptOpt_init StopCriteria.default).set_dir OptDirV.MIN) 0 2 0)
  ∧ dataLiveThroughRun
      (singleOptTrace ((NLoptOpt_init StopCriteria.default).set_dir OptDirV.MIN) 0 2 0)
      = false := by
  refine ⟨?_, ?_, rfl⟩ <;>
    simp [singleOptTrace, setUpTrace, NLoptOpt_init, NLoptOptState.set_dir]

/-- C3 (code_bug evaluation): the default-constructed `Bound` is not the
widest representable range: its `min()` is
`std::numeric_limits<double>::min() = 2^-1022`, the smallest POSITIVE
normalized double — strictly positive, hence not the lowest representable
double (`lowest() = -max`), so the default interval excludes every
negative input. -/
theorem bound_default_not_widest :
    Bound.default.min = numeric_limits_double_min
  ∧ Bound.default.max = numeric_limits_double_max
  ∧ 0 < numeric_limits_double_min
  ∧ numeric_limits_double_lowest < 0
  ∧ Bound.default.min ≠ numeric_limits_double_lowest := by
  have h1 : (0 : ℚ) < numeric_limits_double_min := by
    norm_num [numeric_limits_double_min]
  have h2 : numeric_limits_double_lowest < 0 := by
    norm_num [numeric_limits_double_lowest, numeric_limits_double_max]
  exact ⟨rfl, rfl, h1, h2, (h2.trans h1).ne'⟩

/-- C4: one call to the composed optimizer configures both the global and
the local context with the same bounds, the same stop-criteria translation
and the same objective installation (they differ only in the algorithm
identifier), registers the local context as the global context's
subordinate optimizer, and runs only the global context: the composed
`Result`'s code, point and score are exactly what the solver reports for
the global context. -/
theorem comb_configures_both_and_runs_global (oracle : Oracle)
    (o : NLoptOptState) (glob loc funcId : ℕ) (initvals : List ℚ)
    (bounds : List Bound) :
    (let G := set_up o funcId bounds (nlopt_create glob bounds.length)
     let L := set_up o funcId bounds (nlopt_create loc bounds.length)
     comb_optimize oracle o glob loc funcId initvals bounds =
        { resultcode := (oracle ⟨G, some L⟩ initvals).1
          optimum := (oracle ⟨G, some L⟩ initvals).2.1
          score := (oracle ⟨G, some L⟩ initvals).2.2 }
     ∧ G.alg = glob ∧ L.alg = loc ∧ G.dim = bounds.length ∧ L.dim = bounds.length
     ∧ G.lower = L.lower ∧ G.upper = L.upper
     ∧ G.ftol_abs = L.ftol_abs ∧ G.ftol_rel = L.ftol_rel
     ∧ G.stopval = L.stopval ∧ G.maxeval = L.maxeval
     ∧ G.objective = L.objective) := by
  have hg := set_up_spec o funcId bounds (nlopt_create glob bounds.length)
  have hl := set_up_spec o funcId bounds (nlopt_create loc bounds.length)
  refine ⟨rfl, ?_, ?_, ?_, ?_, ?_, ?_, ?_, ?_, ?_, ?_, ?_⟩ <;>
    simp only [hg, hl] <;> rfl

/-- C5: on every invocation of `optfunc`, the configured `stop_condition`
is evaluated first (it is the first recorded action, and the user objective
application is the last), `nlopt_force_stop` is signalled exactly when the
predicate returns true, and the in-flight score is still computed by
applying the user objective and is returned normally in every case. -/
theorem optfunc_checks_stop_before_objective (o : NLoptOptState) (k : ℕ)
    (f : List ℚ → ℚ) (N : ℕ) (params : ℕ → ℚ) :
    (optfunc o k f N params).1 = f (carray_tuple N params)
  ∧ (optfunc o k f N params).2.head? =
      some (AdEv.checkStopCond (o.m_stopcr.stop_condition_call k))
  ∧ (optfunc o k f N params).2.getLast? = some AdEv.applyObjective
  ∧ (AdEv.forceStop ∈ (optfunc o k f N params).2 ↔
      o.m_stopcr.stop_condition_call k = true) := by
  cases h : o.m_stopcr.stop_condition_call k <;> simp [optfunc, h]

/-- C6: `set_up` translates exactly the *set* `StopCriteria` fields into
solver configuration on a fresh context: each NaN-sentinel field is left
untranslated (the solver field stays unset), each set field is installed
with its value — the equality with the criteria field (in the
`Option`-valued model, `none` = NaN = unset) says precisely that — and a
`max_iterations` of 0 installs no evaluation cap while a positive one
installs exactly that cap. -/
theorem set_up_translates_only_set_criteria (o : NLoptOptState)
    (funcId alg : ℕ) (bounds : List Bound) :
    (set_up o funcId bounds (nlopt_create alg bounds.length)).ftol_abs
        = o.m_stopcr.m_abs_score_diff
  ∧ (set_up o funcId bounds (nlopt_create alg bounds.length)).ftol_rel
        = o.m_stopcr.m_rel_score_diff
  ∧ (set_up o funcId bounds (nlopt_create alg bounds.length)).stopval
        = o.m_stopcr.m_stop_score
  ∧ (set_up o funcId bounds (nlopt_create alg bounds.length)).maxeval
        = (if o.m_stopcr.m_max_iterations > 0
           then some o.m_stopcr.m_max_iterations else none)
  ∧ (set_up o funcId bounds (nlopt_create alg bounds.length)).lower
        = bounds.map Bound.min
  ∧ (set_up o funcId bounds (nlopt_create alg bounds.length)).upper
        = bounds.map Bound.max := by
  rw [set_up_spec]
  exact ⟨sentinel_translate _, sentinel_translate _, sentinel_translate _,
    rfl, rfl, rfl⟩

/-- C7: `optimize` reports every outcome through `Result.resultcode` — the
embedding is a total function into `Result`, with no exceptional path —
and for every solver behaviour (the oracle is arbitrary, covering success,
forced-stop and failure codes alike) the returned `Result` carries the
solver's termination code, the point buffer that was initialized from the
initial point and mutated by the solver, and the solver's reported final
score. -/
theorem optimize_reports_via_resultcode (oracle : Oracle) (o : NLoptOptState)
    (alg funcId : ℕ) (initvals : List ℚ) (bounds : List Bound) :
    (let nl : SolverCtx :=
      ⟨set_up o funcId bounds (nlopt_create alg bounds.length), none⟩
     (nloptopt_optimize oracle o alg funcId initvals bounds).resultcode
        = (oracle nl initvals).1
   ∧ (nloptopt_optimize oracle o alg funcId initvals bounds).optimum
        = (oracle nl initvals).2.1
   ∧ (nloptopt_optimize oracle o alg funcId initvals bounds).score
        = (oracle nl initvals).2.2) :=
  ⟨rfl, rfl, rfl⟩

/-- C8: every `optimize` call acquires fresh contexts (exactly one for a
single-algorithm tag, exactly two for a composed tag) and the control-flow
trace releases every one of them — whatever code `rc` the solver run
reports (normal completion, forced stop or failure) and whatever the
direction state, the single trace creates context 0 and destroys it, the
composed trace creates contexts 0 and 1 and destroys both (in reverse
construction order), with the destruction as the very last events of the
call. -/
theorem contexts_released_on_every_path (o : NLoptOptState)
    (alg glob loc dim : ℕ) (rc : ℤ) :
    createdIds (singleOptTrace o alg dim rc) = [0]
  ∧ destroyedIds (singleOptTrace o alg dim rc) = [0]
  ∧ (singleOptTrace o alg dim rc).getLast? = some (Ev.destroyCtx 0)
  ∧ createdIds (combOptTrace o glob loc dim rc) = [0, 1]
  ∧ destroyedIds (combOptTrace o glob loc dim rc) = [1, 0]
  ∧ (combOptTrace o glob loc dim rc).getLast? = some (Ev.destroyCtx 0) := by
  cases hd : o.m_dir <;>
    simp [singleOptTrace, combOptTrace, setUpTrace, createdIds, destroyedIds, hd]

/-- C9 counterexample: the set/get round trip fails for `max_iterations`:
its setter takes a `double` but the member is `unsigned`, so the argument
is truncated — setting `0.5` and reading back yields `0`, not `0.5`. -/
theorem stopcriteria_maxiter_roundtrip_fails :
    (StopCriteria.default.max_iterations (some ((1 : ℚ)/2))).max_iterations_get
      ≠ some ((1 : ℚ)/2) := by
  norm_num [StopCriteria.max_iterations_get, StopCriteria.max_iterations,
    double_to_unsigned, StopCriteria.default]

/-- C9 (amended): every `StopCriteria` setter returns the updated
configuration object, so calls chain (later setters preserve earlier
fields); the set/get round trip holds for every value of the
double-valued fields `abs_score_diff`, `rel_score_diff`, `stop_score` and
for the stored `stop_condition`; for `max_iterations` the `double`
argument is converted to `unsigned`, so the round trip holds exactly for
nonnegative integral values below `2^32`. -/
theorem stopcriteria_setters_chain_and_roundtrip (s : StopCriteria)
    (a r t : DblQ) (cond : ℕ → Bool) (n : ℕ) (hn : n < 2 ^ 32) :
    (s.abs_score_diff a).abs_score_diff_get = a
  ∧ (s.rel_score_diff r).rel_score_diff_get = r
  ∧ (s.stop_score t).stop_score_get = t
  ∧ (s.stop_condition cond).stop_condition_call = cond
  ∧ (((s.abs_score_diff a).rel_score_diff r).stop_score t).abs_score_diff_get = a
  ∧ (((s.abs_score_diff a).rel_score_diff r).stop_score t).rel_score_diff_get = r
  ∧ (s.max_iterations (some (n : ℚ))).max_iterations_get = some ((n : ℕ) : ℚ) := by
  refine ⟨rfl, rfl, rfl, rfl, rfl, rfl, ?_⟩
  have h1 : ((n : ℚ)) < 2 ^ 32 := by exact_mod_cast hn
  have hcond : 0 ≤ ((n : ℚ)) ∧ ((n : ℚ)) < 2 ^ 32 := ⟨by positivity, h1⟩
  simp [StopCriteria.max_iterations, StopCriteria.max_iterations_get,
    double_to_unsigned, hcond, Int.floor_natCast]

/-- C9 witness: the amended round trip, instantiated at the default
criteria and the in-range integral value 7. -/
theorem stopcriteria_setters_chain_and_roundtrip_witness :
    (7 : ℕ) < 2 ^ 32
  ∧ (StopCriteria.default.max_iterations (some ((7 : ℕ) : ℚ))).max_iterations_get
      = some ((7 : ℕ) : ℚ) :=
  ⟨by norm_num,
   (stopcriteria_setters_chain_and_roundtrip StopCriteria.default nanD nanD nanD
      (fun _ => false) 7 (by norm_num)).2.2.2.2.2.2⟩

/-- C10: the optimization direction has no default: constructing an
`Optimizer` (or the underlying `NLoptOpt`) leaves `m_dir` in the
indeterminate state (`undef`, modelling the uninitialized member), and the
`set_up` switch over the direction installs neither a minimize nor a
maximize objective when the direction holds neither `MIN` nor `MAX` —
while `to_min`/`to_max` do store a definite direction. -/
theorem direction_uninitialized_and_no_objective (cr : StopCriteria)
    (funcId alg : ℕ) (bounds : List Bound) :
    (NLoptOpt_init cr).m_dir = OptDirV.undef
  ∧ (Optimizer_init cr).m_opt.m_dir = OptDirV.undef
  ∧ (set_up ⟨cr, OptDirV.undef⟩ funcId bounds
        (nlopt_create alg bounds.length)).objective = none
  ∧ ((Optimizer_init cr).to_min).m_opt.m_dir = OptDirV.MIN
  ∧ ((Optimizer_init cr).to_max).m_opt.m_dir = OptDirV.MAX := by
  refine ⟨rfl, rfl, ?_, rfl, rfl⟩
  rw [set_up_spec]
  rfl

end SlicOpt
